import Mathlib

/-!
Verification of the trade-execution and market-data-streaming subsystem of a
pump.fun trading CLI.

The pricing engine and trade orchestrator live in `src/solana-trader.ts`
(class `SolanaTrader`), the stream client in `src/websocket-monitor.ts`
(class `PumpFunWebSocket`).  JavaScript `number` arithmetic is modelled over
`ℚ` (exact rational arithmetic; the pricing functions apply no rounding
operators themselves, and every disequality proved below holds by a margin
far larger than double rounding error at the magnitudes involved).  Where
the rounding of the doubles is itself at issue, IEEE-754 binary64
round-to-nearest-even is modelled explicitly (`roundDouble`).
Byte buffers are modelled as `List ℕ` with each entry a byte value.
Asynchronous network calls are modelled by an explicit environment of
responses plus a trace of the calls issued.
-/

/-! ### Pricing engine (`SolanaTrader.calculateExpectedTokens` / `calculateExpectedSol`) -/

/-- The constant `LAMPORTS_PER_SOL` from `@solana/web3.js`. -/
def LAMPORTS_PER_SOL : ℚ := 1000000000

/-- Embedding of `SolanaTrader.calculateExpectedTokens(solLamports, virtualSolReserves,
virtualTokenReserves)`: constant-product formula `x * y = k`, computing
`virtualTokenReserves - k / (virtualSolReserves + solLamports)` with JS `/`
(real division, no truncation). -/
def calculateExpectedTokens (solLamports virtualSolReserves virtualTokenReserves : ℚ) : ℚ :=
  let k := virtualSolReserves * virtualTokenReserves
  let newSolReserves := virtualSolReserves + solLamports
  let newTokenReserves := k / newSolReserves
  virtualTokenReserves - newTokenReserves

/-- Embedding of `SolanaTrader.calculateExpectedSol(tokenLamports, virtualSolReserves,
virtualTokenReserves)`. -/
def calculateExpectedSol (tokenLamports virtualSolReserves virtualTokenReserves : ℚ) : ℚ :=
  let k := virtualSolReserves * virtualTokenReserves
  let newTokenReserves := virtualTokenReserves + tokenLamports
  let newSolReserves := k / newTokenReserves
  virtualSolReserves - newSolReserves

/-- Modelled from the spec's words (not from the source): the buy output under
"exact integer division in the implementation's integer width", i.e.
`tokenReserve - (solReserve * tokenReserve) / (solReserve + amountIn)` with
truncating integer division.  Used only to compare against the source's
`calculateExpectedTokens`, which divides without truncation. -/
def specExpectedTokensIntDiv (amountIn solReserve tokenReserve : ℕ) : ℤ :=
  (tokenReserve : ℤ) - ((solReserve : ℤ) * (tokenReserve : ℤ)) / ((solReserve : ℤ) + (amountIn : ℤ))

/-- Round a scaled significand to the nearest integer, ties to even. -/
def roundHalfEven (q : ℚ) : ℤ :=
  if q - ⌊q⌋ < 1 / 2 then ⌊q⌋
  else if 1 / 2 < q - ⌊q⌋ then ⌊q⌋ + 1
  else if ⌊q⌋ % 2 = 0 then ⌊q⌋ else ⌊q⌋ + 1

/-- IEEE-754 binary64 round-to-nearest-even for values in the normal range
(all values arising in the evaluations below are normal): a nonzero value of
magnitude `a` lies in the binade `[2 ^ e, 2 ^ (e + 1))` with
`e = Int.log 2 a`; it is rounded to the nearest integer multiple of the unit
in the last place `2 ^ (e - 52)` (53-bit significand), ties to even. -/
def roundDouble (x : ℚ) : ℚ :=
  if x = 0 then 0
  else if x < 0 then
    -((roundHalfEven (|x| / 2 ^ (Int.log 2 |x| - 52)) : ℚ) * 2 ^ (Int.log 2 |x| - 52))
  else
    (roundHalfEven (|x| / 2 ^ (Int.log 2 |x| - 52)) : ℚ) * 2 ^ (Int.log 2 |x| - 52)

/-- The computation of `calculateExpectedTokens` under IEEE binary64
semantics: JS numbers are doubles, so each arithmetic operator of the source
rounds its exact result to the nearest double. -/
def calculateExpectedTokensFP (solLamports virtualSolReserves virtualTokenReserves : ℚ) : ℚ :=
  let k := roundDouble (virtualSolReserves * virtualTokenReserves)
  let newSolReserves := roundDouble (virtualSolReserves + solLamports)
  let newTokenReserves := roundDouble (k / newSolReserves)
  roundDouble (virtualTokenReserves - newTokenReserves)

/-! ### Instruction encoder (`buildBuyInstruction` / `buildSellInstruction`) -/

/-- Little-endian 8-byte encoding, as performed by `Buffer.writeBigUInt64LE`. -/
def leBytes8 (n : ℕ) : List ℕ :=
  [n % 256, n / 256 % 256, n / 65536 % 256, n / 16777216 % 256,
   n / 4294967296 % 256, n / 1099511627776 % 256,
   n / 281474976710656 % 256, n / 72057594037927936 % 256]

/-- Value denoted by an 8-byte little-endian buffer. -/
def leDecode8 (bs : List ℕ) : ℕ :=
  bs.foldr (fun b acc => b + 256 * acc) 0

/-- The pump.fun buy instruction discriminator, `Buffer.from([102, 6, 61, 18, 1, 218, 235, 234])`. -/
def buyDiscriminator : List ℕ := [102, 6, 61, 18, 1, 218, 235, 234]

/-- The pump.fun sell instruction discriminator, `Buffer.from([51, 230, 133, 164, 1, 127, 131, 173])`. -/
def sellDiscriminator : List ℕ := [51, 230, 133, 164, 1, 127, 131, 173]

/-- The 24-byte data payload built by `buildBuyInstruction`: discriminator at
offset 0, `minTokens` written little-endian at offset 8, `solAmount` at offset 16. -/
def buildBuyData (minTokens solAmount : ℕ) : List ℕ :=
  buyDiscriminator ++ leBytes8 minTokens ++ leBytes8 solAmount

/-- The 24-byte data payload built by `buildSellInstruction`: discriminator at
offset 0, `tokenAmount` at offset 8, `minSol` at offset 16. -/
def buildSellData (tokenAmount minSol : ℕ) : List ℕ :=
  sellDiscriminator ++ leBytes8 tokenAmount ++ leBytes8 minSol

/-- One entry of a Solana instruction's account list. -/
structure AccountMeta where
  pubkey : String
  isSigner : Bool
  isWritable : Bool
  deriving DecidableEq, Repr

/-- The constant `PUMP_GLOBAL_STATE` from `solana-trader.ts`. -/
def PUMP_GLOBAL_STATE : String := "4wTV1YmiEkRvAtNtsSGPtUrqRYQMe5SKy2uB4Jjaxnjf"

/-- The constant `PUMP_FUN_FEE_RECIPIENT` from `solana-trader.ts`. -/
def PUMP_FUN_FEE_RECIPIENT : String := "CebN5WGQ4jvEPvsVU4EoHEpgzq1VV7AbCJtGpGYKLXYi"

/-- The address `SystemProgram.programId` from `@solana/web3.js`. -/
def systemProgramId : String := "11111111111111111111111111111111"

/-- The address `TOKEN_PROGRAM_ID` from `@solana/spl-token`. -/
def TOKEN_PROGRAM_ID : String := "TokenkegQfeZyiNwAJbNbGKPFXCWuBvf9Ss623VQ5DA"

/-- The `keys` list constructed by `buildBuyInstruction`. -/
def buildBuyKeys (buyer mint bondingCurve associatedBondingCurve buyerAta : String) :
    List AccountMeta :=
  [⟨PUMP_GLOBAL_STATE, false, false⟩,
   ⟨PUMP_FUN_FEE_RECIPIENT, false, true⟩,
   ⟨mint, false, false⟩,
   ⟨bondingCurve, false, true⟩,
   ⟨associatedBondingCurve, false, true⟩,
   ⟨buyerAta, false, true⟩,
   ⟨buyer, true, true⟩,
   ⟨systemProgramId, false, false⟩,
   ⟨TOKEN_PROGRAM_ID, false, false⟩]

/-- The `keys` list constructed by `buildSellInstruction`. -/
def buildSellKeys (seller mint bondingCurve associatedBondingCurve sellerAta : String) :
    List AccountMeta :=
  [⟨PUMP_GLOBAL_STATE, false, false⟩,
   ⟨PUMP_FUN_FEE_RECIPIENT, false, true⟩,
   ⟨mint, false, false⟩,
   ⟨bondingCurve, false, true⟩,
   ⟨associatedBondingCurve, false, true⟩,
   ⟨sellerAta, false, true⟩,
   ⟨seller, true, true⟩,
   ⟨systemProgramId, false, false⟩,
   ⟨TOKEN_PROGRAM_ID, false, false⟩]

/-- Modelled from the spec's words (not from the source): the required
9-entry account list, "identical positions for both directions": global
curve-config account (read-only), fee-recipient (writable), mint (read-only),
bonding-curve (writable), associated-bonding-curve (writable), the trader's
token account (writable), the trader's wallet (writable, signer), the base
system account (read-only), the token-program account (read-only). -/
def specTradeKeys (trader mint bondingCurve associatedBondingCurve traderTokenAccount : String) :
    List AccountMeta :=
  [⟨PUMP_GLOBAL_STATE, false, false⟩,
   ⟨PUMP_FUN_FEE_RECIPIENT, false, true⟩,
   ⟨mint, false, false⟩,
   ⟨bondingCurve, false, true⟩,
   ⟨associatedBondingCurve, false, true⟩,
   ⟨traderTokenAccount, false, true⟩,
   ⟨trader, true, true⟩,
   ⟨systemProgramId, false, false⟩,
   ⟨TOKEN_PROGRAM_ID, false, false⟩]

/-! ### Trade orchestrator (`SolanaTrader.buyToken` / `sellToken`) -/

/-- Classification of the `error` string carried by a failed `TradeResult`. -/
inductive TradeError where
  /-- Corresponds to the message "Wallet not initialized". -/
  | walletNotInitialized : TradeError
  /-- Corresponds to "Amount exceeds max buy limit of ... SOL" (carrying `config.maxBuyAmount`). -/
  | maxBuyExceeded (maxBuyAmount : ℚ) : TradeError
  /-- Any message captured by the surrounding `try`/`catch`. -/
  | other (msg : String) : TradeError
  deriving DecidableEq, Repr

/-- The `TradeResult` record of `types.ts`. -/
structure TradeResult where
  success : Bool
  signature : Option String
  error : Option TradeError
  amountIn : ℚ
  amountOut : Option ℚ
  deriving DecidableEq, Repr

/-- The signing wallet (`Keypair`); only its presence and public key matter here. -/
structure Wallet where
  publicKey : String
  deriving DecidableEq, Repr

/-- The trading part of the configuration surface (`config.ts`). -/
structure Config where
  maxBuyAmount : ℚ
  slippageBps : ℚ
  deriving DecidableEq, Repr

/-- The fields of `PumpFunToken` consumed by the trade orchestrator. -/
structure PumpToken where
  mint : String
  bonding_curve : String
  associated_bonding_curve : String
  virtual_sol_reserves : ℚ
  virtual_token_reserves : ℚ
  deriving DecidableEq, Repr

/-- Network calls a trade operation can issue, in source order. -/
inductive NetCall where
  | getAccountInfo : NetCall
  | getLatestBlockhash : NetCall
  | sendTransaction : NetCall
  deriving DecidableEq, Repr

/-- Responses of the RPC collaborator: each awaited call either throws
(`Except.error` with the message the surrounding `catch` will see) or returns. -/
structure NetEnv where
  ataInfo : Except String Bool
  blockhash : Except String String
  send : Except String String
  deriving Repr

/-- Embedding of `SolanaTrader.buyToken(token, solAmount)`.  Returns the
`TradeResult` together with the trace of network calls issued.  The early
returns (`wallet` null, `solAmount > config.maxBuyAmount`) issue no calls;
afterwards the source awaits `getAccountInfo`, `getLatestBlockhash` and
`sendAndConfirmTransaction` in order, converting any thrown error into a
failed result via the `catch` block. -/
def buyToken (wallet : Option Wallet) (cfg : Config) (token : PumpToken)
    (solAmount : ℚ) (env : NetEnv) : TradeResult × List NetCall :=
  match wallet with
  | none => (⟨false, none, some .walletNotInitialized, solAmount, none⟩, [])
  | some _w =>
    if solAmount > cfg.maxBuyAmount then
      (⟨false, none, some (.maxBuyExceeded cfg.maxBuyAmount), solAmount, none⟩, [])
    else
      match env.ataInfo with
      | .error e => (⟨false, none, some (.other e), solAmount, none⟩, [.getAccountInfo])
      | .ok _ataExists =>
        let lamports : ℚ := (⌊solAmount * LAMPORTS_PER_SOL⌋ : ℤ)
        let expectedTokens :=
          calculateExpectedTokens lamports token.virtual_sol_reserves token.virtual_token_reserves
        match env.blockhash with
        | .error e =>
          (⟨false, none, some (.other e), solAmount, none⟩, [.getAccountInfo, .getLatestBlockhash])
        | .ok _bh =>
          match env.send with
          | .error e =>
            (⟨false, none, some (.other e), solAmount, none⟩,
             [.getAccountInfo, .getLatestBlockhash, .sendTransaction])
          | .ok sig =>
            (⟨true, some sig, none, solAmount, some (expectedTokens / 1000000)⟩,
             [.getAccountInfo, .getLatestBlockhash, .sendTransaction])

/-- Embedding of `SolanaTrader.sellToken(token, tokenAmount)`: same shape as
`buyToken` but with no max-amount guard and no account lookup. -/
def sellToken (wallet : Option Wallet) (_cfg : Config) (token : PumpToken)
    (tokenAmount : ℚ) (env : NetEnv) : TradeResult × List NetCall :=
  match wallet with
  | none => (⟨false, none, some .walletNotInitialized, tokenAmount, none⟩, [])
  | some _w =>
    let tokenLamports : ℚ := (⌊tokenAmount * 1000000⌋ : ℤ)
    let expectedSol :=
      calculateExpectedSol tokenLamports token.virtual_sol_reserves token.virtual_token_reserves
    match env.blockhash with
    | .error e => (⟨false, none, some (.other e), tokenAmount, none⟩, [.getLatestBlockhash])
    | .ok _bh =>
      match env.send with
      | .error e =>
        (⟨false, none, some (.other e), tokenAmount, none⟩,
         [.getLatestBlockhash, .sendTransaction])
      | .ok sig =>
        (⟨true, some sig, none, tokenAmount, some (expectedSol / LAMPORTS_PER_SOL)⟩,
         [.getLatestBlockhash, .sendTransaction])

/-! ### Stream client (`PumpFunWebSocket`) -/

/-- A dispatched handler invocation; handlers are identified by an abstract id. -/
inductive HandlerCall where
  | newToken (handler : ℕ) : HandlerCall
  | trade (handler : ℕ) : HandlerCall
  deriving DecidableEq, Repr

/-- Log output relevant to frame handling. -/
inductive LogEvent where
  | parseError : LogEvent
  deriving DecidableEq, Repr

/-- Outbound control frames sent over the socket. -/
inductive OutMsg where
  | subscribeNewToken : OutMsg
  | subscribeTokenTrade (keys : List String) : OutMsg
  | unsubscribeTokenTrade (keys : List String) : OutMsg
  deriving DecidableEq, Repr

/-- State of a `PumpFunWebSocket` instance: `wsOpen` models `this.ws !== null`,
`pendingReconnect` models a reconnect `setTimeout` currently scheduled (with
its delay); the source stores no handle for that timer.  Handlers are
abstract ids (`none` = the field is `null`). -/
structure WsState where
  wsOpen : Bool
  isConnected : Bool
  reconnectAttempts : ℕ
  onNewToken : Option ℕ
  onTrade : Option ℕ
  subscribedTokens : List String
  pendingReconnect : Option ℕ
  deriving DecidableEq, Repr

/-- The field initialiser `maxReconnectAttempts = 5`. -/
def maxReconnectAttempts : ℕ := 5

/-- The socket `open` handler inside `connect()`: marks connected and resets
the attempt counter to zero. -/
def handleOpen (st : WsState) : WsState :=
  { st with isConnected := true, reconnectAttempts := 0 }

/-- Embedding of `attemptReconnect()`.  Returns the new state together with
the delay of the reconnect it scheduled (`none` when the attempt cap has been
reached and nothing is scheduled). -/
def attemptReconnect (st : WsState) : WsState × Option ℕ :=
  if st.reconnectAttempts ≥ maxReconnectAttempts then (st, none)
  else
    let n := st.reconnectAttempts + 1
    let delay := min (1000 * 2 ^ n) 30000
    ({ st with reconnectAttempts := n, pendingReconnect := some delay }, some delay)

/-- The socket `close` handler inside `connect()`: clears `isConnected` and
runs `attemptReconnect()`. -/
def handleClose (st : WsState) : WsState × Option ℕ :=
  attemptReconnect { st with isConnected := false }

/-- Embedding of `handleMessage(message)`: dispatch on the `txType` tag,
invoking the registered handler when present; any other tag does nothing.
(The source tests the handler inside the same `if` condition; the outcome is
identical.) -/
def handleMessage (st : WsState) (txType : Option String) : List HandlerCall :=
  if txType = some "create" then
    match st.onNewToken with
    | some h => [.newToken h]
    | none => []
  else if txType = some "buy" ∨ txType = some "sell" then
    match st.onTrade with
    | some h => [.trade h]
    | none => []
  else []

/-- An inbound frame as seen by the `message` listener: either it fails
`JSON.parse` (`malformed`) or it parses to an object whose `txType` field is
`txType` (possibly absent). -/
inductive InboundFrame where
  | malformed : InboundFrame
  | parsed (txType : Option String) : InboundFrame
  deriving DecidableEq, Repr

/-- The socket `message` listener inside `connect()`: `JSON.parse` under
`try`/`catch` (a parse failure is logged and the frame dropped), then
`handleMessage`.  Returns the new state, the handler invocations, and the log
output. -/
def onSocketMessage (st : WsState) (frame : InboundFrame) :
    WsState × List HandlerCall × List LogEvent :=
  match frame with
  | .malformed => (st, [], [.parseError])
  | .parsed txType => (st, handleMessage st txType, [])

/-- Embedding of `subscribeToToken(mintAddress, callback?)`: an optional
callback replaces `onTrade` when supplied; the mint is added to the
subscription set; the control frame is sent only when `this.ws` is non-null
and `isConnected`.  Returns the new state and the frames sent. -/
def subscribeToToken (st : WsState) (mintAddress : String) (callback : Option ℕ) :
    WsState × List OutMsg :=
  let st1 :=
    match callback with
    | some cb => { st with onTrade := some cb }
    | none => st
  let st2 := { st1 with subscribedTokens := st1.subscribedTokens.insert mintAddress }
  if st2.wsOpen ∧ st2.isConnected then
    (st2, [.subscribeTokenTrade [mintAddress]])
  else
    (st2, [])

/-- Embedding of `disconnect()`: when `this.ws` is non-null, close the socket,
null it out and clear `isConnected`; otherwise do nothing.  No field of the
source holds the reconnect timer, so `pendingReconnect` is untouched. -/
def disconnect (st : WsState) : WsState :=
  if st.wsOpen then { st with wsOpen := false, isConnected := false } else st

/-- A freshly connected client (after `connect()` resolves): socket open,
connected, zero attempts, no handlers, no subscriptions, no pending timer. -/
def connectedInit : WsState :=
  ⟨true, true, 0, none, none, [], none⟩

/-- The delays scheduled by `k` successive connection losses (each `close`
event running `attemptReconnect`), starting from `st`. -/
def delaysAfterFailures : ℕ → WsState → List (Option ℕ)
  | 0, _ => []
  | k + 1, st =>
    let r := handleClose st
    r.2 :: delaysAfterFailures k r.1

/-! ### Theorems -/

/-- Little-endian 8-byte round trip: the buffer written by
`writeBigUInt64LE` denotes the written value for any value in `u64` range. -/
theorem leDecode8_leBytes8 (n : ℕ) (h : n < 2 ^ 64) : leDecode8 (leBytes8 n) = n := by
  simp only [leBytes8, leDecode8, List.foldr]
  omega

/-- C1 (counterexample): on reserves sol = 30e9, token = 1e12 and buy
amountIn = 1e9, the buy output of the source is neither the value of the
spec's integer-division formula nor the approximate value 32_258_064_516 the
spec names: the source divides without truncation. -/
theorem calculateExpectedTokens_no_integer_division :
    calculateExpectedTokens 1000000000 30000000000 1000000000000 ≠
      ((specExpectedTokensIntDiv 1000000000 30000000000 1000000000000 : ℤ) : ℚ) ∧
    calculateExpectedTokens 1000000000 30000000000 1000000000000 ≠ 32258064516 := by
  have hval : calculateExpectedTokens 1000000000 30000000000 1000000000000 = 1000000000000 / 31 := by
    norm_num [calculateExpectedTokens]
  have hspec : specExpectedTokensIntDiv 1000000000 30000000000 1000000000000 = 32258064517 := by
    norm_num [specExpectedTokensIntDiv]
  constructor
  · rw [hval, hspec]; norm_num
  · rw [hval]; norm_num

/-- C1 (amended): the buy output equals
tokenReserve - (solReserve * tokenReserve) / (solReserve + amountIn) with
exact (rational) division, the sell output is symmetric with the token/SOL
roles swapped, and on the scenario reserves the buy output is
1e12 / 31 = 32_258_064_516 + 4/31, a non-integer whose floor is 32_258_064_516. -/
theorem pricing_formula_rational :
    (∀ amountIn solReserve tokenReserve : ℚ,
      calculateExpectedTokens amountIn solReserve tokenReserve =
        tokenReserve - solReserve * tokenReserve / (solReserve + amountIn)) ∧
    (∀ amountIn solReserve tokenReserve : ℚ,
      calculateExpectedSol amountIn solReserve tokenReserve =
        calculateExpectedTokens amountIn tokenReserve solReserve) ∧
    calculateExpectedTokens 1000000000 30000000000 1000000000000 = 32258064516 + 4 / 31 ∧
    ⌊calculateExpectedTokens 1000000000 30000000000 1000000000000⌋ = 32258064516 := by
  refine ⟨fun a s t => rfl, fun a s t => ?_, ?_, ?_⟩
  · simp only [calculateExpectedSol, calculateExpectedTokens]
    rw [mul_comm]
  · norm_num [calculateExpectedTokens]
  · norm_num [calculateExpectedTokens, Int.floor_eq_iff]

/-- C2: for both directions the encoded payload is 24 bytes; bytes 0-7 are
the direction's fixed discriminator (distinct between buy and sell); bytes
8-15 and 16-23 are 8-byte little-endian encodings holding, for buy,
(minTokens, solAmount) and, for sell, (tokenAmount, minSol). -/
theorem trade_payload_layout (minTokens solAmount tokenAmount minSol : ℕ)
    (h1 : minTokens < 2 ^ 64) (h2 : solAmount < 2 ^ 64)
    (h3 : tokenAmount < 2 ^ 64) (h4 : minSol < 2 ^ 64) :
    (buildBuyData minTokens solAmount).length = 24 ∧
    (buildBuyData minTokens solAmount).take 8 = buyDiscriminator ∧
    ((buildBuyData minTokens solAmount).drop 8).take 8 = leBytes8 minTokens ∧
    (buildBuyData minTokens solAmount).drop 16 = leBytes8 solAmount ∧
    leDecode8 (leBytes8 minTokens) = minTokens ∧
    leDecode8 (leBytes8 solAmount) = solAmount ∧
    (buildSellData tokenAmount minSol).length = 24 ∧
    (buildSellData tokenAmount minSol).take 8 = sellDiscriminator ∧
    ((buildSellData tokenAmount minSol).drop 8).take 8 = leBytes8 tokenAmount ∧
    (buildSellData tokenAmount minSol).drop 16 = leBytes8 minSol ∧
    leDecode8 (leBytes8 tokenAmount) = tokenAmount ∧
    leDecode8 (leBytes8 minSol) = minSol ∧
    buyDiscriminator ≠ sellDiscriminator :=
  ⟨rfl, rfl, rfl, rfl, leDecode8_leBytes8 _ h1, leDecode8_leBytes8 _ h2,
   rfl, rfl, rfl, rfl, leDecode8_leBytes8 _ h3, leDecode8_leBytes8 _ h4, by decide⟩

/-- C2 (witness): the layout theorem evaluated at concrete amounts. -/
theorem trade_payload_layout_witness :
    (1 : ℕ) < 2 ^ 64 ∧ (2 : ℕ) < 2 ^ 64 ∧ (3 : ℕ) < 2 ^ 64 ∧ (4 : ℕ) < 2 ^ 64 ∧
    ((buildBuyData 1 2).length = 24 ∧
     (buildBuyData 1 2).take 8 = buyDiscriminator ∧
     ((buildBuyData 1 2).drop 8).take 8 = leBytes8 1 ∧
     (buildBuyData 1 2).drop 16 = leBytes8 2 ∧
     leDecode8 (leBytes8 1) = 1 ∧
     leDecode8 (leBytes8 2) = 2 ∧
     (buildSellData 3 4).length = 24 ∧
     (buildSellData 3 4).take 8 = sellDiscriminator ∧
     ((buildSellData 3 4).drop 8).take 8 = leBytes8 3 ∧
     (buildSellData 3 4).drop 16 = leBytes8 4 ∧
     leDecode8 (leBytes8 3) = 3 ∧
     leDecode8 (leBytes8 4) = 4 ∧
     buyDiscriminator ≠ sellDiscriminator) :=
  ⟨by norm_num, by norm_num, by norm_num, by norm_num,
   trade_payload_layout 1 2 3 4 (by norm_num) (by norm_num) (by norm_num) (by norm_num)⟩

/-- C3: for every choice of the variable accounts, both the buy and the sell
instruction carry exactly the 9-entry account list prescribed by the spec, in
the same positions and with the same signer/writable attributes. -/
theorem trade_keys_spec (trader mint bondingCurve associatedBondingCurve traderTokenAccount : String) :
    buildBuyKeys trader mint bondingCurve associatedBondingCurve traderTokenAccount =
      specTradeKeys trader mint bondingCurve associatedBondingCurve traderTokenAccount ∧
    buildSellKeys trader mint bondingCurve associatedBondingCurve traderTokenAccount =
      specTradeKeys trader mint bondingCurve associatedBondingCurve traderTokenAccount ∧
    (buildBuyKeys trader mint bondingCurve associatedBondingCurve traderTokenAccount).length = 9 :=
  ⟨rfl, rfl, rfl⟩

/-- C4: with a wallet loaded, a buy whose amount strictly exceeds the
configured max buy amount returns a failed TradeResult classified as
limit-exceeded (echoing the requested amount) and issues zero network calls. -/
theorem buyToken_max_limit (w : Wallet) (cfg : Config) (token : PumpToken)
    (solAmount : ℚ) (env : NetEnv) (h : cfg.maxBuyAmount < solAmount) :
    buyToken (some w) cfg token solAmount env =
      (⟨false, none, some (.maxBuyExceeded cfg.maxBuyAmount), solAmount, none⟩, []) := by
  simp only [buyToken]
  rw [if_pos h]

/-- C4 (witness): the limit guard evaluated at max buy 1 SOL and a 2 SOL buy. -/
theorem buyToken_max_limit_witness :
    (Config.mk 1 500).maxBuyAmount < 2 ∧
    buyToken (some ⟨"trader"⟩) ⟨1, 500⟩ ⟨"m", "b", "a", 30000000000, 1000000000000⟩ 2
        ⟨.ok true, .ok "bh", .ok "sig"⟩ =
      (⟨false, none, some (.maxBuyExceeded 1), 2, none⟩, []) :=
  ⟨by norm_num, buyToken_max_limit ⟨"trader"⟩ ⟨1, 500⟩ _ 2 _ (by norm_num)⟩

/-- C5: the delay scheduled before reconnect attempt n is
min(1000ms * 2 ^ n, 30000ms) as long as the cap is not reached; starting from
a fresh connection, five consecutive losses schedule exactly the delays
2000, 4000, 8000, 16000, 30000 ms and the sixth schedules nothing; a
successful connection resets the attempt counter to zero. -/
theorem reconnect_backoff :
    (∀ (st : WsState) (n : ℕ), st.reconnectAttempts = n → n < maxReconnectAttempts →
      (attemptReconnect st).2 = some (min (1000 * 2 ^ (n + 1)) 30000)) ∧
    delaysAfterFailures 6 connectedInit =
      [some 2000, some 4000, some 8000, some 16000, some 30000, none] ∧
    (∀ st : WsState, (handleOpen st).reconnectAttempts = 0) := by
  refine ⟨fun st n hn hlt => ?_, by decide, fun st => rfl⟩
  unfold attemptReconnect
  rw [hn, if_neg (by omega)]

/-- C5 (witness): the backoff formula evaluated at a fresh client. -/
theorem reconnect_backoff_witness :
    connectedInit.reconnectAttempts = 0 ∧ 0 < maxReconnectAttempts ∧
    (attemptReconnect connectedInit).2 = some (min (1000 * 2 ^ (0 + 1)) 30000) :=
  ⟨rfl, by decide, reconnect_backoff.1 connectedInit 0 rfl (by decide)⟩

/-- C6 (code evaluated at the failing input): after a connection loss has
scheduled a reconnect (2000 ms pending), disconnect() leaves that timer
pending; moreover the close event raised by disconnect() itself runs
attemptReconnect and schedules a fresh 2000 ms reconnect. The claim (and the
spec) require disconnect() to cancel pending reconnects so that no automatic
attempt ever fires afterwards. -/
theorem disconnect_reconnect_bug :
    (disconnect (handleClose connectedInit).1).pendingReconnect = some 2000 ∧
    (handleClose (disconnect connectedInit)).2 = some 2000 := by decide

/-- Evaluation rule for `roundDouble` at a positive value, given the unit in
the last place and the rounded significand. -/
theorem roundDouble_pos_eval (x ulp : ℚ) (m : ℤ) (hx : 0 < x)
    (hulp : (2 : ℚ) ^ (Int.log 2 x - 52) = ulp)
    (hm : roundHalfEven (x / ulp) = m) :
    roundDouble x = m * ulp := by
  unfold roundDouble
  rw [if_neg hx.ne', if_neg (not_lt.mpr hx.le), abs_of_pos hx, hulp, hm]

/-- Evaluation rule for `roundDouble` at a negative value. -/
theorem roundDouble_neg_eval (x ulp : ℚ) (m : ℤ) (hx : x < 0)
    (hulp : (2 : ℚ) ^ (Int.log 2 |x| - 52) = ulp)
    (hm : roundHalfEven (|x| / ulp) = m) :
    roundDouble x = -(m * ulp) := by
  unfold roundDouble
  rw [if_neg hx.ne, if_pos hx, hulp, hm]

/-- Evaluation rule for `roundHalfEven`, given the floor of the argument. -/
theorem roundHalfEven_eval {q : ℚ} {n : ℤ} (hn : ⌊q⌋ = n) :
    roundHalfEven q =
      if q - n < 1 / 2 then n
      else if 1 / 2 < q - n then n + 1
      else if n % 2 = 0 then n else n + 1 := by
  unfold roundHalfEven
  rw [hn]

/-- Binade of the product 3 * 3002399751580333 = 2 ^ 53 + 7. -/
theorem log2_product : Int.log 2 (9007199254740999 : ℚ) = 53 := by
  have h : Nat.log 2 9007199254740999 = 53 :=
    Nat.log_eq_of_pow_le_of_lt_pow (by norm_num) (by norm_num)
  rw [Int.log_of_one_le_right 2 (by norm_num), Nat.floor_ofNat, h]
  norm_num

/-- Binade of the sol reserve 3. -/
theorem log2_three : Int.log 2 (3 : ℚ) = 1 := by
  have h : Nat.log 2 3 = 1 :=
    Nat.log_eq_of_pow_le_of_lt_pow (by norm_num) (by norm_num)
  rw [Int.log_of_one_le_right 2 (by norm_num), Nat.floor_ofNat, h]
  norm_num

/-- Binade of the quotient (2 ^ 53 + 8) / 3. -/
theorem log2_quotient : Int.log 2 ((9007199254741000 : ℚ) / 3) = 51 := by
  rw [Int.log_of_one_le_right 2 (by norm_num)]
  have hfl : ⌊(9007199254741000 : ℚ) / 3⌋₊ = 3002399751580333 := by
    rw [Nat.floor_eq_iff (by norm_num)]
    norm_num
  have h : Nat.log 2 3002399751580333 = 51 :=
    Nat.log_eq_of_pow_le_of_lt_pow (by norm_num) (by norm_num)
  rw [hfl, h]
  norm_num

/-- Binade of 1/2. -/
theorem log2_half : Int.log 2 ((1 : ℚ) / 2) = -1 := by
  rw [Int.log_of_right_le_one 2 (by norm_num)]
  have hcl : ⌈((1 : ℚ) / 2)⁻¹⌉₊ = 2 := by norm_num
  rw [hcl, Nat.clog_eq_one (by norm_num) (by norm_num)]
  norm_num

/-- Rounding the product: 2 ^ 53 + 7 is odd-significand-and-a-half, the tie
goes up to the even significand, giving 2 ^ 53 + 8. -/
theorem roundDouble_product : roundDouble (9007199254740999 : ℚ) = 9007199254741000 := by
  have hm : roundHalfEven ((9007199254740999 : ℚ) / 2) = 4503599627370500 := by
    have hn : ⌊(9007199254740999 : ℚ) / 2⌋ = 4503599627370499 := by
      rw [Int.floor_eq_iff]
      norm_num
    rw [roundHalfEven_eval hn]
    norm_num
  have h := roundDouble_pos_eval 9007199254740999 2 4503599627370500
    (by norm_num) (by rw [log2_product]; norm_num) hm
  rw [h]
  norm_num

/-- Rounding the sum 3 + 0 = 3: exactly representable. -/
theorem roundDouble_three : roundDouble (3 : ℚ) = 3 := by
  have hm : roundHalfEven ((3 : ℚ) / (1 / 2251799813685248)) = 6755399441055744 := by
    have hn : ⌊(3 : ℚ) / (1 / 2251799813685248)⌋ = 6755399441055744 := by
      rw [Int.floor_eq_iff]
      norm_num
    rw [roundHalfEven_eval hn]
    norm_num
  have h := roundDouble_pos_eval 3 (1 / 2251799813685248) 6755399441055744
    (by norm_num) (by rw [log2_three]; norm_num) hm
  rw [h]
  norm_num

/-- Rounding the quotient (2 ^ 53 + 8) / 3: the exact value t + 1/3 is closer
to t + 1/2 than to t in the binade with ulp 1/2, so the double result is
t + 1/2 where t = 3002399751580333. -/
theorem roundDouble_quotient :
    roundDouble ((9007199254741000 : ℚ) / 3) = 3002399751580333 + 1 / 2 := by
  have hm : roundHalfEven ((9007199254741000 : ℚ) / 3 / (1 / 2)) = 6004799503160667 := by
    have hn : ⌊(9007199254741000 : ℚ) / 3 / (1 / 2)⌋ = 6004799503160666 := by
      rw [Int.floor_eq_iff]
      norm_num
    rw [roundHalfEven_eval hn]
    norm_num
  have h := roundDouble_pos_eval ((9007199254741000 : ℚ) / 3) (1 / 2)
    6004799503160667 (by norm_num) (by rw [log2_quotient]; norm_num) hm
  rw [h]
  norm_num

/-- Rounding -(1/2): a power of two, exactly representable. -/
theorem roundDouble_negHalf : roundDouble (-(1 / 2) : ℚ) = -(1 / 2) := by
  have habs : |(-(1 / 2) : ℚ)| = 1 / 2 := by
    rw [abs_of_neg (by norm_num)]
    norm_num
  have hm : roundHalfEven (|(-(1 / 2) : ℚ)| / (1 / 9007199254740992)) = 4503599627370496 := by
    rw [habs]
    have hn : ⌊(1 : ℚ) / 2 / (1 / 9007199254740992)⌋ = 4503599627370496 := by
      rw [Int.floor_eq_iff]
      norm_num
    rw [roundHalfEven_eval hn]
    norm_num
  have h := roundDouble_neg_eval (-(1 / 2)) (1 / 9007199254740992)
    4503599627370496 (by norm_num) (by rw [habs, log2_half]; norm_num) hm
  rw [h]
  norm_num

/-- C7 (code evaluated at the failing input): under IEEE binary64 semantics
the buy output at amountIn = 0, solReserve = 3,
tokenReserve = 3002399751580333 is -1/2, a negative value the code does not
clamp: the product 3 * 3002399751580333 = 2 ^ 53 + 7 rounds up to 2 ^ 53 + 8,
its quotient by 3 rounds up to tokenReserve + 1/2, and the final subtraction
returns -1/2.  The claim (and the spec's clamping requirement) say the output
is >= 0 for every non-negative amountIn and positive integer reserves. -/
theorem expectedTokens_negative_double :
    calculateExpectedTokensFP 0 3 3002399751580333 = -(1 / 2) ∧
    ¬ 0 ≤ calculateExpectedTokensFP 0 3 3002399751580333 := by
  have heval : calculateExpectedTokensFP 0 3 3002399751580333 = -(1 / 2) := by
    simp only [calculateExpectedTokensFP]
    rw [show ((3 : ℚ) * 3002399751580333) = 9007199254740999 by norm_num,
      roundDouble_product,
      show ((3 : ℚ) + 0) = 3 by norm_num,
      roundDouble_three,
      roundDouble_quotient,
      show ((3002399751580333 : ℚ) - (3002399751580333 + 1 / 2)) = -(1 / 2) by norm_num,
      roundDouble_negHalf]
  exact ⟨heval, by rw [heval]; norm_num⟩

/-- C8: a frame that fails to parse is logged and dropped, leaving the state
(including the connection) unchanged and invoking no handler; a parsed frame
whose tag is none of create/buy/sell is dropped silently, also leaving the
state unchanged. -/
theorem inbound_frame_handling :
    (∀ st : WsState, onSocketMessage st .malformed = (st, [], [.parseError])) ∧
    (∀ (st : WsState) (tag : Option String),
      tag ≠ some "create" → tag ≠ some "buy" → tag ≠ some "sell" →
      onSocketMessage st (.parsed tag) = (st, [], [])) := by
  refine ⟨fun st => rfl, fun st tag h1 h2 h3 => ?_⟩
  simp [onSocketMessage, handleMessage, h1, h2, h3]

/-- C8 (witness): an unrecognized tag on a fresh connection is dropped. -/
theorem inbound_frame_handling_witness :
    (some "other" ≠ some "create") ∧ (some "other" ≠ some "buy") ∧
    (some "other" ≠ some "sell") ∧
    onSocketMessage connectedInit (.parsed (some "other")) = (connectedInit, [], []) :=
  ⟨by decide, by decide, by decide,
   inbound_frame_handling.2 connectedInit (some "other") (by decide) (by decide) (by decide)⟩

/-- C9: with no wallet loaded, both buyToken and sellToken return a failed
TradeResult classifying the uninitialized wallet and echoing the requested
amount, and issue zero network calls. -/
theorem trade_wallet_guard (cfg : Config) (token : PumpToken) (amount : ℚ) (env : NetEnv) :
    buyToken none cfg token amount env =
      (⟨false, none, some .walletNotInitialized, amount, none⟩, []) ∧
    sellToken none cfg token amount env =
      (⟨false, none, some .walletNotInitialized, amount, none⟩, []) :=
  ⟨rfl, rfl⟩

/-- C10: subscribing to a mint without supplying a callback leaves the
registered trade handler unchanged, adds the mint to the subscription set,
and sends the control frame only when the client is currently connected. -/
theorem subscribe_keeps_handler (st : WsState) (mint : String) :
    (subscribeToToken st mint none).1.onTrade = st.onTrade ∧
    mint ∈ (subscribeToToken st mint none).1.subscribedTokens ∧
    ((subscribeToToken st mint none).2 = [] ∨
      (st.isConnected = true ∧
        (subscribeToToken st mint none).2 = [.subscribeTokenTrade [mint]])) := by
  refine ⟨?_, ?_, ?_⟩
  · simp only [subscribeToToken]
    split <;> rfl
  · simp only [subscribeToToken]
    split <;> exact List.mem_insert_self mint st.subscribedTokens
  · simp only [subscribeToToken]
    split
    · next h => exact Or.inr ⟨h.2, rfl⟩
    · exact Or.inl rfl
